import Mathlib

/-!
Verification of the scoring and classification engine of grat.io
(src/grat_io_app.py): criterion classifier, weight tables, point
aggregation, discount ledger, tier classifier and professional summary
builder, shallowly embedded in Lean 4.

Python strings are modelled as Lean `String`; Python `None` as `Option`;
Python `dict`s as insertion-ordered association lists; the SQLite
`descontos` table as a list of rows in rowid order, with SQL `NULL`
comparison semantics made explicit.
-/

namespace GratIo

/-- Python `str.lower()` restricted to the character ranges the labels use:
ASCII `A`–`Z` and the Latin-1 uppercase letters `À`–`Þ` (except `×`) map to
their lowercase forms 0x20 above; all other characters are unchanged. -/
def pyLowerChar (c : Char) : Char :=
  if 'A' ≤ c ∧ c ≤ 'Z' then Char.ofNat (c.toNat + 32)
  else if 'À' ≤ c ∧ c ≤ 'Þ' ∧ c ≠ '×' then Char.ofNat (c.toNat + 32)
  else c

/-- Python `s.lower()` on a string, character by character. -/
def pyLower (s : String) : String :=
  ⟨s.data.map pyLowerChar⟩

/-- `startsWithL sub l`: `sub` occurs at the head of `l`. -/
def startsWithL : List Char → List Char → Bool
  | [], _ => true
  | _ :: _, [] => false
  | a :: as, b :: bs => a == b && startsWithL as bs

/-- `hasSubL sub l`: `sub` occurs contiguously somewhere in `l`
(Python `sub in l`). -/
def hasSubL (sub : List Char) : List Char → Bool
  | [] => startsWithL sub []
  | b :: bs => startsWithL sub (b :: bs) || hasSubL sub bs

/-- Python substring test `sub in s`. -/
def hasSub (sub s : String) : Bool :=
  hasSubL sub.data s.data

/-- `map_tipo_para_criterio` (src/grat_io_app.py lines 228–252): maps the
free-text `tipo` field to a scoring criterion.  The argument is optional
because the Python code accepts `None` and coerces it via `tipo_text or ""`
before lowercasing. -/
def map_tipo_para_criterio (tipo_text : Option String) : String :=
  let t := pyLower (tipo_text.getD "")
  if hasSub "visita" t then "visita_domiciliar"
  else if hasSub "pré" t || hasSub "pre" t then
    if hasSub "lme" t || hasSub "receita" t || hasSub "renov" t then "dias_lme"
    else "pre_natal"
  else if hasSub "demanda" t then "dias_demanda_8"
  else if ["pediatria", "ginecologia", "clínica", "clinica", "medicina",
           "hipertensão", "hipertensao", "diabetes"].any (fun x => hasSub x t) then
    "especialidades_basicas"
  else if ["reunião", "reuniao", "reunioes", "reuniões"].any (fun x => hasSub x t) then
    "reunioes"
  else if ["capacita", "curso"].any (fun x => hasSub x t) then "capacitacoes"
  else if ["lme", "receita", "renovacao", "renovação"].any (fun x => hasSub x t) then
    "dias_lme"
  else if ["lançado", "lancad", "maestro", "sistema"].any (fun x => hasSub x t) then
    "dias_lancados_sistema"
  else if hasSub "consulta" t then "consulta"
  else "outros"

/-- `WEIGHTS_POSITIVOS` (lines 201–212): positive points per unit of each
criterion, as the insertion-ordered entry list of the Python dict. -/
def WEIGHTS_POSITIVOS : List (String × Int) :=
  [("dias_25_vagas", 20),
   ("dias_demanda_8", 10),
   ("visita_domiciliar", 8),
   ("semanas_encaminho_ate15", 100),
   ("semanas_encaminho_acima15", 300),
   ("dias_lme", 15),
   ("reunioes", 20),
   ("capacitacoes", 30),
   ("especialidades_basicas", 36),
   ("dias_lancados_sistema", 10)]

/-- `WEIGHTS_NEGATIVOS` (lines 215–224): penalty value per occurrence of
each discount field. -/
def WEIGHTS_NEGATIVOS : List (String × Int) :=
  [("falta_meio", 300),
   ("falta_dia", 400),
   ("falta_aso", 0),
   ("falta_injust", 1650),
   ("nao_especialidade", 12),
   ("nao_uso_sistema", 210),
   ("nao_25_vagas", 1000),
   ("recusa_atendimento", 1000)]

/-- `calcula_pontos_positivos_from_summary` (lines 256–262): folds over the
entries of the per-criterion count dict, adding `weight * count` for every
criterion present in `WEIGHTS_POSITIVOS` and skipping the rest. -/
def calcula_pontos_positivos_from_summary (summary_counts : List (String × Int)) : Int :=
  summary_counts.foldl
    (fun pts kv =>
      match WEIGHTS_POSITIVOS.lookup kv.1 with
      | some w => pts + w * kv.2
      | none => pts)
    0

/-- `classify_points` (lines 266–277): tier classification by final points. -/
def classify_points (pontos_final : Int) : String :=
  if 650 ≤ pontos_final ∧ pontos_final ≤ 850 then "Tem direito - Gratificação Tipo I"
  else if 851 ≤ pontos_final ∧ pontos_final ≤ 950 then "Tem direito - Gratificação Tipo II"
  else if 951 ≤ pontos_final ∧ pontos_final ≤ 1050 then "Tem direito - Gratificação Tipo III"
  else if 1051 ≤ pontos_final ∧ pontos_final ≤ 1150 then "Tem direito - Gratificação Tipo IV"
  else if 1151 ≤ pontos_final then "Tem direito - Gratificação Tipo V"
  else "Não tem direito"

/-- The detail page's reconstruction of an occurrence count from a stored
discount value (line 431): `saved_val // peso if peso and peso > 0 else
saved_val`.  Python `//` on ints is floor division, i.e. `Int.fdiv`. -/
def initial_count (saved_val : Int) (peso : Int) : Int :=
  if peso ≠ 0 ∧ 0 < peso then Int.fdiv saved_val peso else saved_val

/-! ## Discount ledger (SQLite table `descontos`) -/

/-- One row of the `descontos` table created by `init_db` (lines 37–48):
`(profissional_id, period, campo, valor)` with a UNIQUE constraint on the
first three columns.  `profissional_id` is nullable.  The table is modelled
as a list of rows in rowid order. -/
structure DescontoRow where
  profissional_id : Option String
  period : String
  campo : String
  valor : Int
  deriving Repr, DecidableEq

/-- SQL `=` on a nullable TEXT column: comparison with `NULL` is never
true (SQLite three-valued logic collapsed to the rows a WHERE clause or a
UNIQUE constraint actually matches). -/
def sqlEqS : Option String → Option String → Bool
  | some a, some b => a == b
  | _, _ => false

/-- One `INSERT OR REPLACE INTO descontos ...` statement (lines 71–74):
rows conflicting on the UNIQUE key `(profissional_id, period, campo)` are
deleted and the new row is appended (it receives a fresh rowid).  A `NULL`
`profissional_id` never conflicts, so such a row is simply appended. -/
def upsertDesconto (db : List DescontoRow) (pid : Option String)
    (period campo : String) (valor : Int) : List DescontoRow :=
  db.filter (fun r =>
    !(sqlEqS r.profissional_id pid && r.period == period && r.campo == campo))
    ++ [⟨pid, period, campo, valor⟩]

/-- `save_descontos` (lines 64–75): returns immediately on an empty dict,
otherwise executes one INSERT OR REPLACE per dict entry, in order. -/
def save_descontos (db : List DescontoRow) (profissional_id : Option String)
    (period : String) (descontos_dict : List (String × Int)) : List DescontoRow :=
  if descontos_dict.isEmpty then db
  else
    descontos_dict.foldl
      (fun d kv => upsertDesconto d profissional_id period kv.1 kv.2) db

/-- `load_descontos` (lines 93–98): `SELECT campo, valor FROM descontos
WHERE profissional_id=? AND period=?`, returned as a `campo → valor` dict.
With the UNIQUE constraint the selected `campo`s are pairwise distinct, so
the dict is the association list of the selected rows. -/
def load_descontos (db : List DescontoRow) (profissional_id : Option String)
    (period : String) : List (String × Int) :=
  (db.filter (fun r =>
    sqlEqS r.profissional_id profissional_id && r.period == period)).map
    (fun r => (r.campo, r.valor))

/-- Observation of the stored value at one `(profissional_id, period,
campo)` key: the value of the first row matching it, if any. -/
def getVal (db : List DescontoRow) (pid : Option String)
    (period campo : String) : Option Int :=
  (db.find? (fun r =>
    sqlEqS r.profissional_id pid && r.period == period && r.campo == campo)).map
    (fun r => r.valor)

/-- The invariant the UNIQUE constraint enforces: no two rows share a
non-NULL `(profissional_id, period, campo)` key. -/
def AtMostOnePerKey (db : List DescontoRow) : Prop :=
  db.Pairwise (fun r s =>
    ¬(sqlEqS r.profissional_id s.profissional_id = true ∧
      r.period = s.period ∧ r.campo = s.campo))

instance : DecidablePred AtMostOnePerKey := fun db =>
  List.instDecidablePairwise db

/-! ## Professional summary builder -/

/-- One row of the activity data frame after `load_atendimentos` (lines
78–90): `quantidade` has been coerced to a non-null int, text columns are
nullable. -/
structure Atendimento where
  profissional_id : Option String
  profissional : Option String
  tipo : Option String
  quantidade : Int
  deriving Repr, DecidableEq

/-- Python dict read `d.get(k, dflt)`. -/
def dictGet (d : List (String × Int)) (k : String) (dflt : Int) : Int :=
  match d.lookup k with
  | some v => v
  | none => dflt

/-- Python dict write `d[k] = v`: an existing key keeps its position and
gets the new value, a new key is appended. -/
def dictSet (d : List (String × Int)) (k : String) (v : Int) : List (String × Int) :=
  if d.any (fun x => x.1 == k) then
    d.map (fun x => if x.1 == k then (k, v) else x)
  else d ++ [(k, v)]

/-- The per-group criterion counting loop (lines 346–349, also 412–415):
`crit_counts[crit] = crit_counts.get(crit, 0) + int(r["quantidade"])`
(the `pd.notnull` guard is vacuous after `load_atendimentos` coerced
`quantidade` to int). -/
def crit_counts_of (g : List Atendimento) : List (String × Int) :=
  g.foldl
    (fun cc r =>
      let crit := map_tipo_para_criterio r.tipo
      dictSet cc crit (dictGet cc crit 0 + r.quantidade))
    []

/-- The distinct `(profissional_id, profissional)` pairs of the data frame,
in order of first appearance — the groups of
`df.groupby(["profissional_id", "profissional"], dropna=False)` (pandas
additionally sorts the groups by key; no claim depends on output order). -/
def groupKeys (df : List Atendimento) : List (Option String × Option String) :=
  df.foldl
    (fun ks r =>
      if (r.profissional_id, r.profissional) ∈ ks then ks
      else ks ++ [(r.profissional_id, r.profissional)])
    []

/-- The test `x not in (None, "", "None")` of lines 353 and 362, applied to
a nullable string. -/
def presentStr : Option String → Bool
  | none => false
  | some s => !(s == "" || s == "None")

/-- One output row of `resumo_por_profissional` (lines 360–368). -/
structure ResumoRow where
  profissional_id : Option String
  profissional : Option String
  crit_counts : List (String × Int)
  pontos_positivos : Int
  pontos_negativos : Int
  pontos_finais : Int
  classificacao : String
  deriving Repr, DecidableEq

/-- The body of `resumo_por_profissional` for one group (lines 344–369). -/
def resumoRowFor (db : List DescontoRow) (selected_period : String)
    (df : List Atendimento) (key : Option String × Option String) : ResumoRow :=
  let g := df.filter (fun r =>
    r.profissional_id == key.1 && r.profissional == key.2)
  let crit_counts := crit_counts_of g
  let pontos_pos := calcula_pontos_positivos_from_summary crit_counts
  let key_id := if presentStr key.1 then key.1 else key.2
  let descontos_salvos := load_descontos db key_id selected_period
  let pontos_neg := (descontos_salvos.map (fun kv => kv.2)).sum
  let pontos_final := pontos_pos - pontos_neg
  { profissional_id := key_id
    profissional := if presentStr key.2 then key.2 else key_id
    crit_counts := crit_counts
    pontos_positivos := pontos_pos
    pontos_negativos := pontos_neg
    pontos_finais := pontos_final
    classificacao := classify_points pontos_final }

/-- `resumo_por_profissional` (lines 341–372): one summary row per
`(profissional_id, profissional)` group of the period's records; an empty
data frame yields an empty result. -/
def resumo_por_profissional (df : List Atendimento) (db : List DescontoRow)
    (selected_period : String) : List ResumoRow :=
  (groupKeys df).map (resumoRowFor db selected_period df)

/-! ## Spec-side definitions (for refinement claims only)

These follow the wording of the specification, to be compared with the
definitions above that were translated from the source. -/

/-- One rule of the spec's §4.1 priority chain. -/
structure Rule where
  pred : String → Bool
  crit : String

/-- Modelled from the spec: the §4.1 rule chain as an explicit ordered list
of (predicate, criterion) pairs (rules 1–10; rule 11 is the `"outros"`
fallback of `classifySpec`). -/
def specRules : List Rule :=
  [⟨fun t => hasSub "visita" t, "visita_domiciliar"⟩,
   ⟨fun t => (hasSub "pré" t || hasSub "pre" t)
       && (hasSub "lme" t || hasSub "receita" t || hasSub "renov" t), "dias_lme"⟩,
   ⟨fun t => hasSub "pré" t || hasSub "pre" t, "pre_natal"⟩,
   ⟨fun t => hasSub "demanda" t, "dias_demanda_8"⟩,
   ⟨fun t => ["pediatria", "ginecologia", "clínica", "clinica", "medicina",
       "hipertensão", "hipertensao", "diabetes"].any (fun x => hasSub x t),
     "especialidades_basicas"⟩,
   ⟨fun t => ["reunião", "reuniao", "reunioes", "reuniões"].any (fun x => hasSub x t),
     "reunioes"⟩,
   ⟨fun t => ["capacita", "curso"].any (fun x => hasSub x t), "capacitacoes"⟩,
   ⟨fun t => ["lme", "receita", "renovacao", "renovação"].any (fun x => hasSub x t),
     "dias_lme"⟩,
   ⟨fun t => ["lançado", "lancad", "maestro", "sistema"].any (fun x => hasSub x t),
     "dias_lancados_sistema"⟩,
   ⟨fun t => hasSub "consulta" t, "consulta"⟩]

/-- Modelled from the spec: §4.1's classifier contract — lowercase the
label, evaluate the rule chain top-to-bottom, first match wins, and return
`"outros"` when no rule matches. -/
def classifySpec (activityLabel : String) : String :=
  let t := pyLower activityLabel
  match specRules.find? (fun r => r.pred t) with
  | some r => r.crit
  | none => "outros"

/-- Top-to-bottom first-match evaluation of a rule chain, with the
`"outros"` fallback — the evaluation order §4.1 prescribes. -/
def firstMatch : List Rule → String → String
  | [], _ => "outros"
  | r :: rs, t => if r.pred t then r.crit else firstMatch rs t

/-- Modelled from the spec: §4.4's tier table as disjoint range tests. -/
def tierSpec (finalPoints : Int) : String :=
  if 1151 ≤ finalPoints then "Tem direito - Gratificação Tipo V"
  else if 1051 ≤ finalPoints ∧ finalPoints ≤ 1150 then "Tem direito - Gratificação Tipo IV"
  else if 951 ≤ finalPoints ∧ finalPoints ≤ 1050 then "Tem direito - Gratificação Tipo III"
  else if 851 ≤ finalPoints ∧ finalPoints ≤ 950 then "Tem direito - Gratificação Tipo II"
  else if 650 ≤ finalPoints ∧ finalPoints ≤ 850 then "Tem direito - Gratificação Tipo I"
  else "Não tem direito"

/-! ## Helper lemmas -/

/-- `sqlEqS` holds exactly between equal non-NULL values. -/
lemma sqlEqS_true_iff (a b : Option String) :
    sqlEqS a b = true ↔ ∃ s, a = some s ∧ b = some s := by
  cases a with
  | none => simp [sqlEqS]
  | some x =>
    cases b with
    | none => simp [sqlEqS]
    | some y =>
      constructor
      · intro h
        have hxy : x = y := by simpa [sqlEqS] using h
        exact ⟨y, by rw [hxy], rfl⟩
      · rintro ⟨s, hs1, hs2⟩
        simp [sqlEqS, Option.some_inj.mp hs1, Option.some_inj.mp hs2]

/-- `find?` skips a filter whose predicate is implied by the search
predicate. -/
lemma find?_filter_of_imp {α : Type} (l : List α) (p q : α → Bool)
    (h : ∀ x, p x = true → q x = true) :
    List.find? p (l.filter q) = List.find? p l := by
  induction l with
  | nil => rfl
  | cons a tl ih =>
    rw [List.filter_cons]
    by_cases hq : q a = true
    · rw [if_pos hq, List.find?_cons, List.find?_cons]
      cases hp : p a
      · exact ih
      · rfl
    · rw [if_neg hq, List.find?_cons]
      have hp : p a = false := by
        cases hpa : p a
        · rfl
        · exact absurd (h a hpa) hq
      rw [hp]
      exact ih

/-- Effect of one `INSERT OR REPLACE` on the observed value at any key. -/
lemma getVal_upsert (db : List DescontoRow) (pid : Option String)
    (p c : String) (v : Int) (i : Option String) (j c' : String) :
    getVal (upsertDesconto db pid p c v) i j c' =
      if (sqlEqS pid i && p == j && c == c') = true then some v
      else getVal db i j c' := by
  unfold getVal upsertDesconto
  rw [List.find?_append]
  by_cases h : (sqlEqS pid i && p == j && c == c') = true
  · obtain ⟨s, hpid, hi⟩ := (sqlEqS_true_iff pid i).mp (by
      simp only [Bool.and_eq_true] at h; exact h.1.1)
    have hpj : p = j := by simp only [Bool.and_eq_true, beq_iff_eq] at h; exact h.1.2
    have hcc : c = c' := by simp only [Bool.and_eq_true, beq_iff_eq] at h; exact h.2
    have hnone :
        (db.filter (fun r =>
          !(sqlEqS r.profissional_id pid && r.period == p && r.campo == c))).find?
          (fun r =>
            sqlEqS r.profissional_id i && r.period == j && r.campo == c') = none := by
      rw [List.find?_eq_none]
      intro x hx
      have hkeep := (List.mem_filter.mp hx).2
      intro hfind
      simp only [Bool.and_eq_true, beq_iff_eq] at hfind
      obtain ⟨t, hxpid, hit⟩ := (sqlEqS_true_iff _ _).mp hfind.1.1
      have : sqlEqS x.profissional_id pid = true := by
        rw [sqlEqS_true_iff]
        exact ⟨t, hxpid, by rw [hpid, ← hi, hit]⟩
      simp [this, hfind.1.2, hfind.2, ← hpj, ← hcc] at hkeep
    rw [hnone, if_pos h, Option.none_or, List.find?_cons, h]
    rfl
  · have hrow :
        List.find? (fun r =>
          sqlEqS r.profissional_id i && r.period == j && r.campo == c')
          [(⟨pid, p, c, v⟩ : DescontoRow)] = none := by
      simp only [List.find?_cons]
      have : (sqlEqS pid i && p == j && c == c') = false :=
        Bool.not_eq_true _ ▸ eq_false_of_ne_true h
      simp [this]
    rw [hrow]
    have hfilter :
        (db.filter (fun r =>
          !(sqlEqS r.profissional_id pid && r.period == p && r.campo == c))).find?
          (fun r =>
            sqlEqS r.profissional_id i && r.period == j && r.campo == c') =
        db.find? (fun r =>
          sqlEqS r.profissional_id i && r.period == j && r.campo == c') := by
      apply find?_filter_of_imp
      intro x hx
      simp only [Bool.and_eq_true, beq_iff_eq] at hx
      obtain ⟨t, hxpid, hit⟩ := (sqlEqS_true_iff _ _).mp hx.1.1
      simp only [Bool.not_eq_true', Bool.and_eq_false_iff]
      by_contra hcon
      push_neg at hcon
      simp only [Bool.not_eq_false, Bool.and_eq_true, beq_iff_eq] at hcon
      obtain ⟨⟨hsq, hper⟩, hcam⟩ := hcon
      obtain ⟨u, hxpid2, hpidu⟩ := (sqlEqS_true_iff _ _).mp hsq
      apply h
      have htu : t = u := by
        rw [hxpid] at hxpid2
        exact Option.some_inj.mp hxpid2
      simp only [Bool.and_eq_true, beq_iff_eq]
      refine ⟨⟨?_, by rw [← hper, hx.1.2]⟩, by rw [← hcam, hx.2]⟩
      rw [sqlEqS_true_iff]
      exact ⟨t, by rw [hpidu, htu], hit⟩
    rw [hfilter]
    have h' : (sqlEqS pid i && p == j && c == c') = false :=
      eq_false_of_ne_true h
    simp [h', Option.or]
    cases db.find? (fun r =>
        sqlEqS r.profissional_id i && r.period == j && r.campo == c') <;> rfl

/-- Effect of the `save_descontos` write loop on the observed value at any
key, as a fold over the dict entries. -/
lemma getVal_save_fold (m : List (String × Int)) (db : List DescontoRow)
    (pid i : Option String) (p j c' : String) :
    getVal (m.foldl (fun d kv => upsertDesconto d pid p kv.1 kv.2) db) i j c' =
      m.foldl
        (fun g kv =>
          if (sqlEqS pid i && p == j && kv.1 == c') = true then some kv.2 else g)
        (getVal db i j c') := by
  induction m generalizing db with
  | nil => rfl
  | cons kv tl ih =>
    rw [List.foldl_cons, List.foldl_cons, ih, getVal_upsert]

/-- A fold that overwrites on a matching entry ignores its start value as
soon as some entry matches. -/
lemma foldl_if_any (C : String × Int → Bool) (m : List (String × Int))
    (h : m.any C = true) (x y : Option Int) :
    m.foldl (fun g kv => if C kv = true then some kv.2 else g) x =
      m.foldl (fun g kv => if C kv = true then some kv.2 else g) y := by
  induction m generalizing x y with
  | nil => simp at h
  | cons kv tl ih =>
    rw [List.foldl_cons, List.foldl_cons]
    by_cases hc : C kv = true
    · rw [if_pos hc, if_pos hc]
    · have hc' : C kv = false := eq_false_of_ne_true hc
      have htl : tl.any C = true := by
        simp only [List.any_cons, hc', Bool.false_or] at h
        exact h
      rw [if_neg hc, if_neg hc]
      exact ih htl x y

/-- A fold that overwrites on a matching entry is the identity when no
entry matches. -/
lemma foldl_if_none (C : String × Int → Bool) (m : List (String × Int))
    (h : m.any C = false) (x : Option Int) :
    m.foldl (fun g kv => if C kv = true then some kv.2 else g) x = x := by
  induction m generalizing x with
  | nil => rfl
  | cons kv tl ih =>
    simp only [List.any_cons, Bool.or_eq_false_iff] at h
    rw [List.foldl_cons, if_neg (by simp [h.1]), ih h.2]

/-- Saving the same dict twice leaves every observed key value as after
saving it once. -/
lemma getVal_save_idem (db : List DescontoRow) (pid : Option String)
    (p : String) (m : List (String × Int)) (i : Option String) (j c' : String) :
    getVal (save_descontos (save_descontos db pid p m) pid p m) i j c' =
      getVal (save_descontos db pid p m) i j c' := by
  unfold save_descontos
  by_cases hm : m.isEmpty = true
  · simp [hm]
  · have hm' : m.isEmpty = false := eq_false_of_ne_true hm
    simp only [hm', Bool.false_eq_true, if_false]
    rw [getVal_save_fold, getVal_save_fold]
    by_cases hC : m.any (fun kv => sqlEqS pid i && p == j && kv.1 == c') = true
    · exact foldl_if_any _ m hC _ _
    · have hC' := eq_false_of_ne_true hC
      rw [foldl_if_none _ m hC', foldl_if_none _ m hC']

/-- The dict produced by `load_descontos`, read at one `campo`, observes
exactly the stored value at that key. -/
lemma lookup_load (db : List DescontoRow) (i : Option String) (j c : String) :
    (load_descontos db i j).lookup c = getVal db i j c := by
  induction db with
  | nil => rfl
  | cons r tl ih =>
    unfold load_descontos getVal at *
    rw [List.filter_cons, List.find?_cons]
    by_cases hk : (sqlEqS r.profissional_id i && r.period == j) = true
    · rw [if_pos hk]
      by_cases hc : (r.campo == c) = true
      · have : (sqlEqS r.profissional_id i && r.period == j && r.campo == c) = true := by
          rw [Bool.and_eq_true]
          exact ⟨hk, hc⟩
        rw [this]
        simp only [List.map_cons, List.lookup_cons]
        have : (c == r.campo) = true := by
          rw [beq_iff_eq] at hc ⊢
          exact hc.symm
        rw [this]
        rfl
      · have hfind : (sqlEqS r.profissional_id i && r.period == j && r.campo == c) = false := by
          rw [Bool.and_eq_false_iff]
          right
          exact eq_false_of_ne_true hc
        rw [hfind]
        simp only [List.map_cons, List.lookup_cons]
        have : (c == r.campo) = false := by
          cases hcr : c == r.campo
          · rfl
          · rw [beq_iff_eq] at hcr
            exact absurd (by rw [hcr, beq_iff_eq] : (r.campo == c) = true) hc
        rw [this]
        exact ih
    · have hfind : (sqlEqS r.profissional_id i && r.period == j && r.campo == c) = false := by
        rw [Bool.and_eq_false_iff]
        left
        exact eq_false_of_ne_true hk
      rw [if_neg hk, hfind]
      exact ih

/-- One `INSERT OR REPLACE` preserves the UNIQUE-constraint invariant. -/
lemma atMostOne_upsert (db : List DescontoRow) (pid : Option String)
    (p c : String) (v : Int) (h : AtMostOnePerKey db) :
    AtMostOnePerKey (upsertDesconto db pid p c v) := by
  unfold AtMostOnePerKey upsertDesconto
  rw [List.pairwise_append]
  refine ⟨List.Pairwise.sublist (List.filter_sublist db) h,
    List.pairwise_singleton _ _, ?_⟩
  intro a ha b hb
  have hb' : b = (⟨pid, p, c, v⟩ : DescontoRow) := by simpa using hb
  subst hb'
  have hkeep := (List.mem_filter.mp ha).2
  rw [Bool.not_eq_true', Bool.and_eq_false_iff, Bool.and_eq_false_iff] at hkeep
  rintro ⟨hsq, hper, hcam⟩
  simp only at hsq hper hcam
  rcases hkeep with (h1 | h2) | h3
  · simp [h1] at hsq
  · simp [hper] at h2
  · simp [hcam] at h3

/-- The whole `save_descontos` write loop preserves the UNIQUE-constraint
invariant. -/
lemma atMostOne_save_fold (m : List (String × Int)) (db : List DescontoRow)
    (pid : Option String) (p : String) (h : AtMostOnePerKey db) :
    AtMostOnePerKey
      (m.foldl (fun d kv => upsertDesconto d pid p kv.1 kv.2) db) := by
  induction m generalizing db with
  | nil => exact h
  | cons kv tl ih =>
    rw [List.foldl_cons]
    exact ih _ (atMostOne_upsert db pid p kv.1 kv.2 h)

/-- `calcula_pontos_positivos_from_summary` from any accumulator equals the
accumulator plus the weighted sum of the entries. -/
lemma calcula_aux (l : List (String × Int)) :
    ∀ acc : Int,
      l.foldl
        (fun pts kv =>
          match WEIGHTS_POSITIVOS.lookup kv.1 with
          | some w => pts + w * kv.2
          | none => pts)
        acc =
      acc + (l.map (fun kv => ((WEIGHTS_POSITIVOS.lookup kv.1).getD 0) * kv.2)).sum := by
  induction l with
  | nil => intro acc; simp
  | cons kv tl ih =>
    intro acc
    rw [List.foldl_cons, List.map_cons, List.sum_cons]
    cases hw : WEIGHTS_POSITIVOS.lookup kv.1 with
    | none => rw [ih]; simp [hw]
    | some w => rw [ih]; simp [hw]; ring

/-- The aggregate is the weighted sum over the dict entries, with weight 0
for criteria outside the table. -/
lemma calcula_eq_sum (summary_counts : List (String × Int)) :
    calcula_pontos_positivos_from_summary summary_counts =
      (summary_counts.map
        (fun kv => ((WEIGHTS_POSITIVOS.lookup kv.1).getD 0) * kv.2)).sum := by
  unfold calcula_pontos_positivos_from_summary
  rw [calcula_aux]
  ring

/-- Membership in the accumulated group-key list. -/
lemma groupKeys_fold_mem (df : List Atendimento) :
    ∀ (acc : List (Option String × Option String)) x,
      x ∈ df.foldl
        (fun ks r =>
          if (r.profissional_id, r.profissional) ∈ ks then ks
          else ks ++ [(r.profissional_id, r.profissional)])
        acc ↔
      x ∈ acc ∨ ∃ r ∈ df, (r.profissional_id, r.profissional) = x := by
  induction df with
  | nil => intro acc x; simp
  | cons r tl ih =>
    intro acc x
    rw [List.foldl_cons]
    by_cases hm : (r.profissional_id, r.profissional) ∈ acc
    · rw [if_pos hm, ih]
      constructor
      · rintro (hx | ⟨s, hs, hsx⟩)
        · exact Or.inl hx
        · exact Or.inr ⟨s, List.mem_cons_of_mem r hs, hsx⟩
      · rintro (hx | ⟨s, hs, hsx⟩)
        · exact Or.inl hx
        · rcases List.mem_cons.mp hs with rfl | hs'
          · exact Or.inl (hsx ▸ hm)
          · exact Or.inr ⟨s, hs', hsx⟩
    · rw [if_neg hm, ih]
      constructor
      · rintro (hx | ⟨s, hs, hsx⟩)
        · rcases List.mem_append.mp hx with ha | hk
          · exact Or.inl ha
          · exact Or.inr ⟨r, List.mem_cons_self r tl, (List.mem_singleton.mp hk).symm⟩
        · exact Or.inr ⟨s, List.mem_cons_of_mem r hs, hsx⟩
      · rintro (hx | ⟨s, hs, hsx⟩)
        · exact Or.inl (List.mem_append.mpr (Or.inl hx))
        · rcases List.mem_cons.mp hs with rfl | hs'
          · exact Or.inl (List.mem_append.mpr (Or.inr (List.mem_singleton.mpr hsx.symm)))
          · exact Or.inr ⟨s, hs', hsx⟩

/-- The group keys are the distinct `(profissional_id, profissional)`
pairs occurring in the data frame. -/
lemma mem_groupKeys (df : List Atendimento) (x : Option String × Option String) :
    x ∈ groupKeys df ↔ ∃ r ∈ df, (r.profissional_id, r.profissional) = x := by
  unfold groupKeys
  rw [groupKeys_fold_mem]
  simp

/-- The accumulated group-key list stays duplicate-free. -/
lemma groupKeys_fold_nodup (df : List Atendimento) :
    ∀ acc : List (Option String × Option String),
      acc.Nodup →
      (df.foldl
        (fun ks r =>
          if (r.profissional_id, r.profissional) ∈ ks then ks
          else ks ++ [(r.profissional_id, r.profissional)])
        acc).Nodup := by
  induction df with
  | nil => intro acc h; exact h
  | cons r tl ih =>
    intro acc h
    rw [List.foldl_cons]
    by_cases hm : (r.profissional_id, r.profissional) ∈ acc
    · rw [if_pos hm]; exact ih acc h
    · rw [if_neg hm]
      refine ih _ ?_
      rw [List.nodup_append]
      exact ⟨h, List.nodup_singleton _, by simpa using hm⟩

/-- No `(profissional_id, profissional)` pair appears twice among the
group keys. -/
lemma groupKeys_nodup (df : List Atendimento) : (groupKeys df).Nodup :=
  groupKeys_fold_nodup df [] List.nodup_nil

/-- `find?`-based first-match over a rule list coincides with the
structural top-to-bottom evaluation. -/
lemma find?_eq_firstMatch (rs : List Rule) (t : String) :
    (match rs.find? (fun r => r.pred t) with
     | some r => r.crit
     | none => "outros") = firstMatch rs t := by
  induction rs with
  | nil => rfl
  | cons r tl ih =>
    cases hp : r.pred t
    · have h1 : List.find? (fun r => r.pred t) (r :: tl) =
          List.find? (fun r => r.pred t) tl := by
        rw [List.find?_cons, hp]
      have h2 : firstMatch (r :: tl) t = firstMatch tl t := by
        simp [firstMatch, hp]
      rw [h1, h2]
      exact ih
    · have h1 : List.find? (fun r => r.pred t) (r :: tl) = some r := by
        rw [List.find?_cons, hp]
      rw [h1]
      simp [firstMatch, hp]

/-- A key with no matching rows loads the empty dict. -/
lemma load_descontos_eq_nil (db : List DescontoRow) (key : Option String)
    (j : String)
    (h : ∀ r ∈ db, ¬(sqlEqS r.profissional_id key = true ∧ r.period = j)) :
    load_descontos db key j = [] := by
  unfold load_descontos
  have hf : db.filter (fun r => sqlEqS r.profissional_id key && r.period == j) = [] := by
    rw [List.filter_eq_nil_iff]
    intro r hr
    rw [Bool.and_eq_true, beq_iff_eq]
    exact h r hr
  rw [hf]
  rfl

/-- The source classifier agrees with the spec's first-match rule chain on
every label. -/
lemma map_tipo_eq_classifySpec (s : String) :
    map_tipo_para_criterio (some s) = classifySpec s := by
  have h2 : classifySpec s = firstMatch specRules (pyLower s) := by
    unfold classifySpec
    exact find?_eq_firstMatch specRules (pyLower s)
  rw [h2]
  show map_tipo_para_criterio (some s) = firstMatch specRules (pyLower s)
  unfold map_tipo_para_criterio
  simp only [Option.getD_some, firstMatch, specRules]
  by_cases h1 : hasSub "visita" (pyLower s) = true
  · simp [h1]
  · have h1' : hasSub "visita" (pyLower s) = false := eq_false_of_ne_true h1
    by_cases h3 : (hasSub "pré" (pyLower s) || hasSub "pre" (pyLower s)) = true
    · by_cases hI : (hasSub "lme" (pyLower s) || hasSub "receita" (pyLower s)
          || hasSub "renov" (pyLower s)) = true
      · simp [h1', h3, hI]
      · have hI' := eq_false_of_ne_true hI
        simp [h1', h3, hI']
    · have h3' := eq_false_of_ne_true h3
      simp [h1', h3']

/-! ## Claim theorems -/

/-- C1: the Criterion Classifier is a total function over activity labels
that evaluates the fixed 11-rule substring chain of §4.1 top-to-bottom with
first match winning, case-insensitively, and returns `"outros"` when no
rule matches; a label matching several rules gets the earliest matching
rule's criterion: a label containing both `pré` and `lme` yields
`dias_lme`, not `pre_natal`, and a label containing both `pré` and
`demanda` yields the pré-rule result `pre_natal` because rules 2/3 precede
rule 4. -/
theorem classifier_spec_chain_c1 :
    (∀ s : String, map_tipo_para_criterio (some s) = classifySpec s) ∧
    (∀ s : String,
      (∀ r ∈ specRules, r.pred (pyLower s) = false) →
      map_tipo_para_criterio (some s) = "outros") ∧
    map_tipo_para_criterio (some "Pré Natal LME") = "dias_lme" ∧
    map_tipo_para_criterio (some "Pré Natal demanda") = "pre_natal" := by
  refine ⟨map_tipo_eq_classifySpec, ?_, by decide, by decide⟩
  intro s h
  rw [map_tipo_eq_classifySpec s]
  have hnone : specRules.find? (fun r => r.pred (pyLower s)) = none := by
    rw [List.find?_eq_none]
    intro r hr
    simp [h r hr]
  unfold classifySpec
  show (match specRules.find? (fun r => r.pred (pyLower s)) with
        | some r => r.crit
        | none => "outros") = "outros"
  rw [hnone]

/-- Witness for C1: the label `"xyz"` matches no rule and classifies as
`"outros"`. -/
theorem classifier_spec_chain_c1_witness :
    map_tipo_para_criterio (some "xyz") = "outros" :=
  classifier_spec_chain_c1.2.1 "xyz" (by decide)

/-- C2: the Tier Classifier is pure and total over the integers; it equals
the spec's disjoint inclusive band table, every value below 650 (all
negatives included) is not eligible, and the boundary values 649, 650, 850,
851, 1150, 1151 fall in the stated tiers. -/
theorem tier_classifier_bands_c2 :
    (∀ p : Int, classify_points p = tierSpec p) ∧
    (∀ p : Int, p < 650 → classify_points p = "Não tem direito") ∧
    classify_points 649 = "Não tem direito" ∧
    classify_points 650 = "Tem direito - Gratificação Tipo I" ∧
    classify_points 850 = "Tem direito - Gratificação Tipo I" ∧
    classify_points 851 = "Tem direito - Gratificação Tipo II" ∧
    classify_points 1150 = "Tem direito - Gratificação Tipo IV" ∧
    classify_points 1151 = "Tem direito - Gratificação Tipo V" := by
  refine ⟨?_, ?_, by decide, by decide, by decide, by decide, by decide, by decide⟩
  · intro p
    unfold classify_points tierSpec
    split_ifs <;> first | rfl | omega
  · intro p hp
    unfold classify_points
    split_ifs <;> first | rfl | omega

/-- Witness for C2: the negative value -100 is classified not eligible. -/
theorem tier_classifier_bands_c2_witness :
    classify_points (-100) = "Não tem direito" :=
  tier_classifier_bands_c2.2.1 (-100) (by decide)

/-- C3: `aggregatePositive` returns the sum over the dict entries of
count × per-unit weight with the fixed table weights, and criteria absent
from the table (`consulta`, `outros`, `pre_natal`) contribute zero (their
looked-up weight defaults to 0). -/
theorem aggregate_positive_weights_c3 :
    (∀ summary_counts : List (String × Int),
      calcula_pontos_positivos_from_summary summary_counts =
        (summary_counts.map
          (fun kv => ((WEIGHTS_POSITIVOS.lookup kv.1).getD 0) * kv.2)).sum) ∧
    WEIGHTS_POSITIVOS.lookup "dias_25_vagas" = some 20 ∧
    WEIGHTS_POSITIVOS.lookup "dias_demanda_8" = some 10 ∧
    WEIGHTS_POSITIVOS.lookup "visita_domiciliar" = some 8 ∧
    WEIGHTS_POSITIVOS.lookup "semanas_encaminho_ate15" = some 100 ∧
    WEIGHTS_POSITIVOS.lookup "semanas_encaminho_acima15" = some 300 ∧
    WEIGHTS_POSITIVOS.lookup "dias_lme" = some 15 ∧
    WEIGHTS_POSITIVOS.lookup "reunioes" = some 20 ∧
    WEIGHTS_POSITIVOS.lookup "capacitacoes" = some 30 ∧
    WEIGHTS_POSITIVOS.lookup "especialidades_basicas" = some 36 ∧
    WEIGHTS_POSITIVOS.lookup "dias_lancados_sistema" = some 10 ∧
    WEIGHTS_POSITIVOS.lookup "consulta" = none ∧
    WEIGHTS_POSITIVOS.lookup "outros" = none ∧
    WEIGHTS_POSITIVOS.lookup "pre_natal" = none := by
  exact ⟨calcula_eq_sum, by decide⟩

/-- C6: upserting an empty mapping is a no-op — the stored table is
unchanged, hence every lookup (for the touched key and every other key)
returns exactly what it returned before the call. -/
theorem ledger_empty_upsert_noop_c6 :
    ∀ (db : List DescontoRow) (pid : Option String) (p : String),
      save_descontos db pid p [] = db ∧
      ∀ (i : Option String) (j : String),
        load_descontos (save_descontos db pid p []) i j = load_descontos db i j := by
  intro db pid p
  exact ⟨rfl, fun i j => rfl⟩

/-- C9: the detail page reconstructs an occurrence count as
`storedValue // weight` (floor division) for a positive weight and as the
stored value itself for weight 0 (the `falta_aso` case), and for a positive
weight the reconstruction is exact precisely when the weight divides the
stored value — it is lossy on every non-multiple. -/
theorem reconstruction_floor_div_c9 :
    (∀ v w : Int, 0 < w → initial_count v w = Int.fdiv v w) ∧
    (∀ v : Int, initial_count v 0 = v) ∧
    WEIGHTS_NEGATIVOS.lookup "falta_aso" = some 0 ∧
    (∀ v w : Int, 0 < w → (initial_count v w * w = v ↔ w ∣ v)) := by
  refine ⟨?_, ?_, by decide, ?_⟩
  · intro v w hw
    unfold initial_count
    rw [if_pos ⟨ne_of_gt hw, hw⟩]
  · intro v
    unfold initial_count
    rw [if_neg]
    rintro ⟨h0, _⟩
    exact h0 rfl
  · intro v w hw
    unfold initial_count
    rw [if_pos ⟨ne_of_gt hw, hw⟩, Int.fdiv_eq_ediv v (le_of_lt hw)]
    constructor
    · intro h
      have : w ∣ v / w * w := dvd_mul_left w (v / w)
      rw [h] at this
      exact this
    · exact Int.ediv_mul_cancel

/-- Witness for C9: 401 stored against weight 400 reconstructs as 1
occurrence, weight 0 returns the stored value, and 400 does not divide 401
so the reconstruction is lossy there. -/
theorem reconstruction_floor_div_c9_witness :
    initial_count 401 400 = Int.fdiv 401 400 ∧
    initial_count 7 0 = 7 ∧
    (initial_count 401 400 * 400 = 401 ↔ (400 : Int) ∣ 401) :=
  ⟨reconstruction_floor_div_c9.1 401 400 (by decide),
   reconstruction_floor_div_c9.2.1 7,
   reconstruction_floor_div_c9.2.2.2 401 400 (by decide)⟩

/-- C10: called with `None` or the empty string, the classifier does not
fail: the input is coerced to the empty string and classified `"outros"`. -/
theorem classifier_none_outros_c10 :
    map_tipo_para_criterio none = "outros" ∧
    map_tipo_para_criterio (some "") = "outros" ∧
    map_tipo_para_criterio none = map_tipo_para_criterio (some "") := by
  exact ⟨by decide, by decide, rfl⟩

/-- C5: ledger upsert has last-write-wins replace semantics per
`(professionalKey, period, criterion)` key — after upserting `v1` then `v2`
for the same key, lookup returns `v2` (not `v1 + v2`); upserting the same
mapping twice leaves every observed key value as after upserting it once;
and the UNIQUE-constraint invariant (at most one stored row per non-NULL
key) is preserved by every upsert. -/
theorem ledger_upsert_replace_c5 :
    (∀ (db : List DescontoRow) (k p c : String) (v1 v2 : Int),
      (load_descontos
        (save_descontos (save_descontos db (some k) p [(c, v1)]) (some k) p
          [(c, v2)])
        (some k) p).lookup c = some v2) ∧
    (∀ (db : List DescontoRow) (k p : String) (m : List (String × Int))
      (i : Option String) (j c' : String),
      getVal (save_descontos (save_descontos db (some k) p m) (some k) p m) i j c' =
        getVal (save_descontos db (some k) p m) i j c') ∧
    (∀ (db : List DescontoRow) (k p : String) (m : List (String × Int)),
      AtMostOnePerKey db → AtMostOnePerKey (save_descontos db (some k) p m)) := by
  refine ⟨?_, ?_, ?_⟩
  · intro db k p c v1 v2
    rw [lookup_load]
    have hs : save_descontos
        (save_descontos db (some k) p [(c, v1)]) (some k) p [(c, v2)] =
        upsertDesconto (save_descontos db (some k) p [(c, v1)]) (some k) p c v2 := rfl
    rw [hs, getVal_upsert, if_pos (by simp [sqlEqS])]
  · intro db k p m i j c'
    exact getVal_save_idem db (some k) p m i j c'
  · intro db k p m h
    unfold save_descontos
    by_cases hm : m.isEmpty = true
    · rw [if_pos hm]; exact h
    · rw [if_neg hm]; exact atMostOne_save_fold m db (some k) p h

/-- Witness for C5: a concrete one-row table keeps the invariant after an
upsert of a fresh field. -/
theorem ledger_upsert_replace_c5_witness :
    AtMostOnePerKey
      (save_descontos [⟨some "a", "2025-03", "falta_dia", 400⟩] (some "a")
        "2025-03" [("falta_meio", 300)]) :=
  ledger_upsert_replace_c5.2.2 [⟨some "a", "2025-03", "falta_dia", 400⟩] "a"
    "2025-03" [("falta_meio", 300)] (by decide)

/-- C7: a `(professionalKey, period)` with no recorded rows loads the empty
dict rather than failing, and the Summary Builder then treats the absence
as zero penalty: `negativePoints = 0` and `finalPoints = positivePoints`
for such a professional. -/
theorem missing_discount_zero_c7 :
    (∀ (db : List DescontoRow) (key : Option String) (j : String),
      (∀ r ∈ db, ¬(sqlEqS r.profissional_id key = true ∧ r.period = j)) →
      load_descontos db key j = []) ∧
    (∀ (df : List Atendimento) (db : List DescontoRow) (j : String)
      (row : ResumoRow),
      row ∈ resumo_por_profissional df db j →
      (∀ r ∈ db, ¬(sqlEqS r.profissional_id row.profissional_id = true ∧ r.period = j)) →
      row.pontos_negativos = 0 ∧ row.pontos_finais = row.pontos_positivos) := by
  refine ⟨load_descontos_eq_nil, ?_⟩
  intro df db j row hmem hdb
  unfold resumo_por_profissional at hmem
  obtain ⟨key, hk, hrow⟩ := List.mem_map.mp hmem
  subst hrow
  have hload := load_descontos_eq_nil db
    (resumoRowFor db j df key).profissional_id j hdb
  have hneg : (resumoRowFor db j df key).pontos_negativos = 0 := by
    have hdef : (resumoRowFor db j df key).pontos_negativos =
        ((load_descontos db (resumoRowFor db j df key).profissional_id j).map
          (fun kv => kv.2)).sum := rfl
    rw [hdef, hload]
    rfl
  refine ⟨hneg, ?_⟩
  have hfin : (resumoRowFor db j df key).pontos_finais =
      (resumoRowFor db j df key).pontos_positivos -
        (resumoRowFor db j df key).pontos_negativos := rfl
  rw [hfin, hneg, sub_zero]

/-- Witness for C7: a professional whose key has no ledger rows (the only
stored row belongs to someone else) gets zero negative points and keeps the
positive total. -/
theorem missing_discount_zero_c7_witness :
    (resumoRowFor [⟨some "2", "2025-03", "falta_dia", 400⟩] "2025-03"
        [⟨some "1", some "A", some "Consulta", 2⟩]
        (some "1", some "A")).pontos_negativos = 0 ∧
    (resumoRowFor [⟨some "2", "2025-03", "falta_dia", 400⟩] "2025-03"
        [⟨some "1", some "A", some "Consulta", 2⟩]
        (some "1", some "A")).pontos_finais =
      (resumoRowFor [⟨some "2", "2025-03", "falta_dia", 400⟩] "2025-03"
        [⟨some "1", some "A", some "Consulta", 2⟩]
        (some "1", some "A")).pontos_positivos :=
  missing_discount_zero_c7.2
    [⟨some "1", some "A", some "Consulta", 2⟩]
    [⟨some "2", "2025-03", "falta_dia", 400⟩] "2025-03"
    (resumoRowFor [⟨some "2", "2025-03", "falta_dia", 400⟩] "2025-03"
      [⟨some "1", some "A", some "Consulta", 2⟩] (some "1", some "A"))
    (by decide) (by decide)

/-- C4 counterexample: the claim says professionalKey resolves to
professionalId whenever it is present and non-empty, but the code also
falls back to the name when the id is the literal string `"None"`: for a
record with id `"None"` and name `"Ana"` the emitted summary key is
`"Ana"`. -/
theorem summary_key_resolution_c4_counterexample :
    (resumo_por_profissional [⟨some "None", some "Ana", some "Consulta", 1⟩] []
      "2025-03").map (fun row => row.profissional_id) = [some "Ana"] ∧
    (some "Ana" : Option String) ≠ some "None" := by
  decide

/-- C4 (amended): the Summary Builder emits exactly one summary per
`(professionalId, professionalName)` group; professionalKey resolves to
professionalId when present, non-empty and not the literal string
`"None"`, else professionalName; negativePoints is the sum of the ledger
lookup values for `(professionalKey, period)`; finalPoints is
positivePoints minus negativePoints with no clamping; the tier is
`classify_points` of finalPoints; and an empty record list yields an empty
output. -/
theorem summary_builder_amended_c4 :
    (∀ (db : List DescontoRow) (j : String),
      resumo_por_profissional [] db j = []) ∧
    (∀ (df : List Atendimento) (db : List DescontoRow) (j : String),
      (resumo_por_profissional df db j).length = (groupKeys df).length) ∧
    (∀ df : List Atendimento, (groupKeys df).Nodup) ∧
    (∀ (df : List Atendimento) (x : Option String × Option String),
      x ∈ groupKeys df ↔ ∃ r ∈ df, (r.profissional_id, r.profissional) = x) ∧
    (∀ (df : List Atendimento) (db : List DescontoRow) (j : String)
      (row : ResumoRow),
      row ∈ resumo_por_profissional df db j →
      (∃ key ∈ groupKeys df,
        row.profissional_id = (if presentStr key.1 then key.1 else key.2) ∧
        row.crit_counts = crit_counts_of (df.filter (fun r =>
          r.profissional_id == key.1 && r.profissional == key.2))) ∧
      row.pontos_positivos = calcula_pontos_positivos_from_summary row.crit_counts ∧
      row.pontos_negativos =
        ((load_descontos db row.profissional_id j).map (fun kv => kv.2)).sum ∧
      row.pontos_finais = row.pontos_positivos - row.pontos_negativos ∧
      row.classificacao = classify_points row.pontos_finais) := by
  refine ⟨fun db j => rfl, ?_, groupKeys_nodup, mem_groupKeys, ?_⟩
  · intro df db j
    unfold resumo_por_profissional
    exact List.length_map _ _
  · intro df db j row hmem
    unfold resumo_por_profissional at hmem
    obtain ⟨key, hk, hrow⟩ := List.mem_map.mp hmem
    subst hrow
    exact ⟨⟨key, hk, rfl, rfl⟩, rfl, rfl, rfl, rfl⟩

/-- Witness for C4: the amended characterization instantiated on a
one-record data frame and an empty ledger. -/
theorem summary_builder_amended_c4_witness :
    (∃ key ∈ groupKeys [(⟨some "1", some "A", some "Consulta", 2⟩ : Atendimento)],
      (resumoRowFor [] "2025-03" [⟨some "1", some "A", some "Consulta", 2⟩]
        (some "1", some "A")).profissional_id =
        (if presentStr key.1 then key.1 else key.2) ∧
      (resumoRowFor [] "2025-03" [⟨some "1", some "A", some "Consulta", 2⟩]
        (some "1", some "A")).crit_counts =
        crit_counts_of
          ([(⟨some "1", some "A", some "Consulta", 2⟩ : Atendimento)].filter (fun r =>
            r.profissional_id == key.1 && r.profissional == key.2))) ∧
    (resumoRowFor [] "2025-03" [⟨some "1", some "A", some "Consulta", 2⟩]
      (some "1", some "A")).pontos_positivos =
      calcula_pontos_positivos_from_summary
        (resumoRowFor [] "2025-03" [⟨some "1", some "A", some "Consulta", 2⟩]
          (some "1", some "A")).crit_counts ∧
    (resumoRowFor [] "2025-03" [⟨some "1", some "A", some "Consulta", 2⟩]
      (some "1", some "A")).pontos_negativos =
      ((load_descontos []
        (resumoRowFor [] "2025-03" [⟨some "1", some "A", some "Consulta", 2⟩]
          (some "1", some "A")).profissional_id "2025-03").map (fun kv => kv.2)).sum ∧
    (resumoRowFor [] "2025-03" [⟨some "1", some "A", some "Consulta", 2⟩]
      (some "1", some "A")).pontos_finais =
      (resumoRowFor [] "2025-03" [⟨some "1", some "A", some "Consulta", 2⟩]
        (some "1", some "A")).pontos_positivos -
      (resumoRowFor [] "2025-03" [⟨some "1", some "A", some "Consulta", 2⟩]
        (some "1", some "A")).pontos_negativos ∧
    (resumoRowFor [] "2025-03" [⟨some "1", some "A", some "Consulta", 2⟩]
      (some "1", some "A")).classificacao =
      classify_points
        (resumoRowFor [] "2025-03" [⟨some "1", some "A", some "Consulta", 2⟩]
          (some "1", some "A")).pontos_finais :=
  summary_builder_amended_c4.2.2.2.2
    [⟨some "1", some "A", some "Consulta", 2⟩] [] "2025-03"
    (resumoRowFor [] "2025-03" [⟨some "1", some "A", some "Consulta", 2⟩]
      (some "1", some "A"))
    (by decide)

/-- C8 counterexample: a record with negative quantity does not make the
engine fail fast — the summary builder returns normally and silently folds
the negative value into the criterion counts (-5) and the point totals
(-40). -/
theorem negative_quantity_c8_counterexample :
    resumo_por_profissional [⟨some "1", some "A", some "Visita domiciliar", -5⟩]
      [] "2025-03" =
      [⟨some "1", some "A", [("visita_domiciliar", -5)], -40, 0, -40,
        "Não tem direito"⟩] := by
  decide

/-- C8 (amended): the engine is total and raises no error even for a
genuinely invalid negative quantity — the negative value is folded into the
criterion counts and the (then negative) positive-point total without any
validation. -/
theorem negative_quantity_folded_c8 :
    ∀ q : Int, q < 0 →
      crit_counts_of [⟨some "1", some "A", some "Visita domiciliar", q⟩] =
        [("visita_domiciliar", q)] ∧
      calcula_pontos_positivos_from_summary [("visita_domiciliar", q)] = 8 * q ∧
      8 * q < 0 := by
  intro q hq
  refine ⟨?_, ?_, by omega⟩
  · have hc : map_tipo_para_criterio (some "Visita domiciliar") =
        "visita_domiciliar" := by decide
    simp [crit_counts_of, hc, dictSet, dictGet]
  · have hw : WEIGHTS_POSITIVOS.lookup "visita_domiciliar" = some 8 := by decide
    simp [calcula_pontos_positivos_from_summary, hw]

/-- Witness for C8: the fold at quantity -5. -/
theorem negative_quantity_folded_c8_witness :
    crit_counts_of [⟨some "1", some "A", some "Visita domiciliar", -5⟩] =
      [("visita_domiciliar", -5)] ∧
    calcula_pontos_positivos_from_summary [("visita_domiciliar", -5)] = 8 * (-5) ∧
    (8 : Int) * (-5) < 0 :=
  negative_quantity_folded_c8 (-5) (by decide)

end GratIo
